import Mathlib

/-!
Verification of the zimbridge-mda pipeline against its sources.

The development shallowly embeds the Go sources of the repository:
the delivery loop `deliverMails` and the surrounding `main` pipeline
(cmd/mda), the Zimbra HTTP client (`Login`, `FetchArchive`, `formInfo`,
`formInputs`, `extractFormInfo`), and the maildir primitives (`Open`,
`AddMail`).  Network responses, parsed HTML documents and the file system
are modelled as explicit values; byte streams are lists of bytes.
-/

/-! ## String helpers mirroring the Go standard library -/

/-- Model of the splitting done by Go `strings.Split` for a one-character
separator, working on character lists. -/
def splitOnChar (sep : Char) : List Char → List (List Char)
  | [] => [[]]
  | c :: cs =>
    let r := splitOnChar sep cs
    if c = sep then [] :: r
    else
      match r with
      | [] => [[c]]
      | h :: t => (c :: h) :: t

/-- Go `strings.Split s sep` for a one-character separator. -/
def goSplit (s : String) (sep : Char) : List String :=
  (splitOnChar sep s.data).map String.mk

/-- Part of Go `strings.Cut`: the text before the first occurrence of the
separator, or `none` when the separator does not occur (`found = false`). -/
def cutBefore (sep : Char) : List Char → Option (List Char)
  | [] => none
  | c :: cs => if c = sep then some [] else (cutBefore sep cs).map (c :: ·)

/-- Go `strings.Cut s sep` restricted to the `(before, found)` information
used by the program. -/
def goCutPre (s : String) (sep : Char) : Option String :=
  (cutBefore sep s.data).map String.mk

/-- Go `strings.TrimLeft s "0"`: strip leading zero characters. -/
def goTrimLeftZero (s : String) : String :=
  String.mk (s.data.dropWhile (fun c => c = '0'))

/-- Boolean test that the first list is an initial segment of the second. -/
def listStarts : List Char → List Char → Bool
  | [], _ => true
  | _ :: _, [] => false
  | p :: ps, c :: cs => p = c && listStarts ps cs

/-- Go `strings.HasPrefix s pre`. -/
def goStartsWith (s pre : String) : Bool :=
  listStarts pre.data s.data

/-- Go `strings.ToUpper` restricted to ASCII, which is all the program
compares (`method` attributes against `"POST"`). -/
def goToUpper (s : String) : String :=
  String.mk (s.data.map Char.toUpper)

/-- Helper for `pathExt`: scan the reversed character list until a slash
(no extension) or a dot (extension found, returned in order). -/
def pathExtAux : List Char → List Char → Option (List Char)
  | [], _ => none
  | c :: cs, acc =>
    if c = '/' then none
    else if c = '.' then some (c :: acc)
    else pathExtAux cs (c :: acc)

/-- Go `path.Ext`: the suffix of the last slash-separated element starting
at its final dot, including the dot; empty when there is no dot. -/
def pathExt (s : String) : String :=
  match pathExtAux s.data.reverse [] with
  | some l => String.mk l
  | none => ""

/-- Concatenate strings with a separator between consecutive elements. -/
def strJoinSep (sep : String) : List String → String
  | [] => ""
  | [s] => s
  | s :: rest => s ++ sep ++ strJoinSep sep rest

/-- One step of the `filepath.Clean` component scan: drop empty and dot
components, resolve dot-dot against the accumulator (kept reversed). -/
def cleanStep (rooted : Bool) (acc : List String) (c : String) : List String :=
  if c = "" ∨ c = "." then acc
  else if c = ".." then
    match acc with
    | [] => if rooted then [] else [".."]
    | prev :: restAcc => if prev = ".." then c :: prev :: restAcc else restAcc
  else c :: acc

/-- Go `filepath.Clean` on slash-separated paths: collapse repeated
slashes, remove dot components, resolve dot-dot components, returning
`"."` (or `"/"` when rooted) for an empty result. -/
def filepathClean (p : String) : String :=
  if p = "" then "." else
  let rooted := goStartsWith p "/"
  let comps := goSplit p '/'
  let out := (comps.foldl (cleanStep rooted) []).reverse
  let joined := strJoinSep "/" out
  if rooted then "/" ++ joined
  else if joined = "" then "." else joined

/-- Go `filepath.Join`: join the non-empty elements with slashes and clean
the result; empty when every element is empty. -/
def filepathJoin (parts : List String) : String :=
  if parts.all (fun s => s == "") then ""
  else filepathClean (strJoinSep "/" (parts.filter (fun s => !(s == ""))))

/-- Go `filepath.Base` for paths without a trailing slash: the portion
after the final slash. -/
def goBase (s : String) : String :=
  String.mk ((s.data.reverse.takeWhile (fun c => c != '/')).reverse)

/-! ## Archive ingestion and delivery (`deliverMails`, cmd/mda main.go) -/

/-- Tar archive entry: header name, header type flag and the entry body as
a byte list. -/
structure TarEntry where
  name : String
  typeflag : Nat
  content : List Nat
deriving DecidableEq

/-- Go `tar.TypeReg`, the byte `'0'`. -/
def tarTypeReg : Nat := 48

/-- Id derivation of `deliverMails` (main.go lines 232-241): split the
header name on slashes, take the last segment, cut at the first dash
(`none` when no dash is present), and strip leading zeros from the
prefix. -/
def mailId (name : String) : Option String :=
  match goCutPre ((goSplit name '/').getLastD "") '-' with
  | none => none
  | some pre => some (goTrimLeftZero pre)

/-- Failure points of one LMTP delivery exchange in `deliverMails`:
the MAIL, RCPT and DATA commands, streaming the body, closing the data
writer, and the final RSET. -/
inductive LmtpStep where
  | mailCmd
  | rcptCmd
  | dataCmd
  | copyBody
  | closeData
  | resetCmd
deriving DecidableEq

/-- Error text produced by `deliverMails` for each failing LMTP step. -/
def lmtpErrMsg : LmtpStep → String
  | .mailCmd => "LMTP MAIL"
  | .rcptCmd => "LMTP RCPT"
  | .dataCmd => "LMTP DATA"
  | .copyBody => "copy"
  | .closeData => "close data"
  | .resetCmd => "reset"

/-- Decoded gzip/tar archive: the entry list in physical order, plus a
flag recording whether the tar stream ends in a decode error instead of a
clean EOF (main.go lines 181-187). -/
def Archive : Type := List TarEntry × Bool

/-- Worker loop of `deliverMails` (main.go lines 180-243).  The LMTP
server is modelled by `sink`: for the `k`-th attempted delivery it gives
the first failing step, or `none` when the whole exchange (MAIL, RCPT,
DATA, body copy, close, RSET) succeeds.  Irregular entries and entries
without the `.eml` extension are skipped.  For a delivered entry the id is
derived afterwards; a missing dash only logs and skips the id.  The first
component of the result is the list of fully delivered entries (in
order); the second is the Go return value, where an error return carries
no ids (Go returns `nil, err`). -/
def deliverMailsAux (sink : Nat → Option LmtpStep) (corrupt : Bool) :
    List TarEntry → Nat → List TarEntry → List String →
    List TarEntry × Except String (List String)
  | [], _, delivered, ids =>
    (delivered.reverse, if corrupt then .error "invalid tarball" else .ok ids.reverse)
  | e :: rest, k, delivered, ids =>
    if e.typeflag ≠ tarTypeReg then
      deliverMailsAux sink corrupt rest k delivered ids
    else if pathExt e.name = ".eml" then
      match sink k with
      | some step => (delivered.reverse, .error (lmtpErrMsg step))
      | none =>
        match mailId e.name with
        | none => deliverMailsAux sink corrupt rest (k + 1) (e :: delivered) ids
        | some id => deliverMailsAux sink corrupt rest (k + 1) (e :: delivered) (id :: ids)
    else
      deliverMailsAux sink corrupt rest k delivered ids

/-- Return value of `deliverMails` (main.go lines 175-248). -/
def deliverMails (sink : Nat → Option LmtpStep) (ar : Archive) :
    Except String (List String) :=
  (deliverMailsAux sink ar.2 ar.1 0 [] []).2

/-- Entries fully delivered to the LMTP sink during a `deliverMails` run
(ghost observation of the same loop). -/
def deliveredTrace (sink : Nat → Option LmtpStep) (ar : Archive) : List TarEntry :=
  (deliverMailsAux sink ar.2 ar.1 0 [] []).1

/-- Sink on which every delivery exchange succeeds. -/
def allOk : Nat → Option LmtpStep := fun _ => none

/-- Entries that `deliverMails` actually processes: regular tar entries
whose name has the `.eml` extension. -/
def processedEntry (e : TarEntry) : Bool :=
  (e.typeflag == tarTypeReg) && (pathExt e.name == ".eml")

/-! ## Archive fetching and the main pipeline -/

/-- HTTP response to the archive request of `FetchArchive` (zimbra.go):
status code, content-type header and the decoded body. -/
structure FetchResp where
  status : Nat
  ct : String
  body : Archive

/-- Go `zimbra.FetchArchive` (zimbra.go lines 72-96) after the GET: a 204
status yields `none` (nothing new, not an error); any other non-200
status or a content-type not starting with `application/x-compressed-tar`
is an error; otherwise the body is returned. -/
def FetchArchive (resp : FetchResp) : Except String (Option Archive) :=
  if resp.status = 204 then .ok none
  else if resp.status ≠ 200 then .error "unexpected status code"
  else if goStartsWith resp.ct "application/x-compressed-tar" = false then
    .error "unexpected content-type"
  else .ok (some resp.body)

/-- Observable outcome of one run of `main` from the `FetchArchive` call
onward: the process exit code, the entries delivered to the LMTP sink,
the id list bound in `main` (`none` when `deliverMails` failed or was
never reached), and the argument lists of the `TagMails` calls made. -/
structure RunResult where
  exitCode : Nat
  delivered : List TarEntry
  ids : Option (List String)
  tagCalls : List (List String)
deriving DecidableEq

/-- Pipeline of `main` (main.go lines 130-173) from `FetchArchive` on:
a fetch error exits 1; an absent archive logs `Nothing new` and exits 0
before any delivery or tagging; otherwise the mails are delivered, a
delivery error exits 1 without tagging, and `TagMails` is called exactly
when the configured tag is non-empty, its failure (`tagOk = false`)
exiting 1. -/
def runPipeline (tag : String) (sink : Nat → Option LmtpStep) (tagOk : Bool)
    (resp : FetchResp) : RunResult :=
  match FetchArchive resp with
  | .error _ => ⟨1, [], none, []⟩
  | .ok none => ⟨0, [], none, []⟩
  | .ok (some ar) =>
    match deliverMails sink ar with
    | .error _ => ⟨1, deliveredTrace sink ar, none, []⟩
    | .ok ids =>
      if tag = "" then ⟨0, deliveredTrace sink ar, some ids, []⟩
      else if tagOk then ⟨0, deliveredTrace sink ar, some ids, [ids]⟩
      else ⟨1, deliveredTrace sink ar, some ids, [ids]⟩

/-! ## HTML form extraction (`formInfo`, `formInputs`, zimbra.go) -/

/-- Parsed HTML node in the sibling-chain shape of `golang.org/x/net/html`:
`element` carries the tag, the attribute list, the first child and the
next sibling; `textual` is any non-element node (document, text, comment)
with its first child and next sibling; `nilNode` is the nil pointer
ending a chain. -/
inductive HtmlNode where
  | nilNode : HtmlNode
  | element : String → List (String × String) → HtmlNode → HtmlNode → HtmlNode
  | textual : HtmlNode → HtmlNode → HtmlNode
deriving DecidableEq

/-- Attribute scan of the Go code: iterate over the attribute list and
keep assigning on every key match, so the last occurrence wins; `dflt` is
the initial value of the variable being assigned. -/
def attrLookup (attrs : List (String × String)) (key dflt : String) : String :=
  attrs.foldl (fun acc kv => if kv.1 = key then kv.2 else acc) dflt

/-- Classification of one `<input>` element by `formInputs` (zimbra.go
lines 153-206): the `type` attribute defaults to `text`; `submit` and
`hidden` inputs are collected verbatim when both name and value are
non-empty; a `text` input named `username` contributes the configured
username and a `password` input named `password` the configured password;
every other input is logged and dropped. -/
def inputEntry (username password : String) (attrs : List (String × String)) :
    Option (String × String) :=
  let typ := attrLookup attrs "type" "text"
  let nm := attrLookup attrs "name" ""
  let val := attrLookup attrs "value" ""
  if typ = "submit" ∨ typ = "hidden" then
    if nm ≠ "" ∧ val ≠ "" then some (nm, val) else none
  else if typ = "text" then
    if nm = "username" then some ("username", username) else none
  else if typ = "password" then
    if nm = "password" then some ("password", password) else none
  else none

/-- Depth-first input collection of `formInputs` over a node and its
following siblings, in document order. -/
def formInputsChain (username password : String) : HtmlNode → List (String × String)
  | .nilNode => []
  | .element tag attrs child sib =>
    (if tag = "input" then (inputEntry username password attrs).toList else [])
      ++ formInputsChain username password child
      ++ formInputsChain username password sib
  | .textual child sib =>
    formInputsChain username password child ++ formInputsChain username password sib

/-- Depth-first form search of `formInfo` (zimbra.go lines 118-151) over a
node and its following siblings: the first `form` element whose `method`
attribute upper-cases to `POST` is accepted, returning its `action`
attribute and the inputs collected from its subtree; a form with any
other method is skipped (its subtree is still searched); when no form is
accepted the search fails.  Applied to a document root, which has no
sibling, this is exactly the recursion of the Go code. -/
def formInfoChain (username password : String) :
    HtmlNode → Except String (String × List (String × String))
  | .nilNode => .error "cannot find form"
  | .element tag attrs child sib =>
    if tag = "form" ∧ goToUpper (attrLookup attrs "method" "") = "POST" then
      .ok (attrLookup attrs "action" "", formInputsChain username password child)
    else
      match formInfoChain username password child with
      | .ok r => .ok r
      | .error _ => formInfoChain username password sib
  | .textual child sib =>
    match formInfoChain username password child with
    | .ok r => .ok r
    | .error _ => formInfoChain username password sib

/-! ## SSO login loop (`Login`, zimbra.go) -/

/-- HTTP response as observed by `Login`: status code, content-type
header, the host of the final request URL, the final URL itself, and the
parsed HTML body. -/
structure LoginResp where
  status : Nat
  ct : String
  host : String
  urlStr : String
  body : HtmlNode

/-- Deterministic environment for one `Login` run: the response to the
initial GET of the login form, and the response to each form POST as a
function of the posted URL and values. -/
structure LoginEnv where
  root : LoginResp
  post : String → List (String × String) → LoginResp

/-- Result of the `Login` model: success, an error return, or exhaustion
of the step budget `fuel` while the Go loop would still be running (the
Go code has no such budget and would keep looping). -/
inductive LoginResult where
  | ok
  | err : String → LoginResult
  | fuelOut
deriving DecidableEq

/-- The target mail host terminating the login loop. -/
def mailHost : String := "mail.etu.cyu.fr"

/-- Go `extractFormInfo` (zimbra.go lines 98-116): extract the accepted
form and resolve its action against the response URL; `rr` models
`url.ResolveReference`. -/
def extractFormInfo (username password : String) (rr : String → String → String)
    (resp : LoginResp) : Except String (String × List (String × String)) :=
  match formInfoChain username password resp.body with
  | .error e => .error e
  | .ok (action, inputs) => .ok (rr resp.urlStr action, inputs)

/-- Loop of `Login` (zimbra.go lines 47-67), with `fuel` bounding the
number of remaining iterations and `count` tracking the HTTP round trips
performed so far.  While the current response URL host differs from the
mail host: extract the form (an extraction failure is an error), POST it
(one more round trip), and fail unless the response has status 200 and a
`text/html` content type. -/
def loginLoop (username password : String) (rr : String → String → String)
    (env : LoginEnv) : Nat → LoginResp → Nat → LoginResult × Nat
  | 0, resp, count =>
    if resp.host = mailHost then (.ok, count) else (.fuelOut, count)
  | fuel + 1, resp, count =>
    if resp.host = mailHost then (.ok, count)
    else
      match extractFormInfo username password rr resp with
      | .error _ => (.err "cannot extract form informations", count)
      | .ok (url, inputs) =>
        if (env.post url inputs).status ≠ 200 then
          (.err "POST: unexpected status code", count + 1)
        else if goStartsWith (env.post url inputs).ct "text/html" = false then
          (.err "POST: unexpected content-type", count + 1)
        else
          loginLoop username password rr env fuel (env.post url inputs) (count + 1)

/-- Go `zimbra.Login` (zimbra.go lines 30-70): GET the login form (one
round trip), fail unless status 200 with a `text/html` content type, then
run the SSO loop.  Returns the result together with the number of HTTP
round trips performed. -/
def login (username password : String) (rr : String → String → String)
    (env : LoginEnv) (fuel : Nat) : LoginResult × Nat :=
  if env.root.status ≠ 200 then (.err "GET: unexpected status code", 1)
  else if goStartsWith env.root.ct "text/html" = false then
    (.err "GET: unexpected content-type", 1)
  else loginLoop username password rr env fuel env.root 1

/-! ## Maildir primitives (maildir/maildir.go) -/

/-- File-system node: a directory or a regular file with its bytes. -/
inductive FsNode where
  | dir : FsNode
  | file : List Nat → FsNode
deriving DecidableEq

/-- File system as an association list from paths to nodes; the first
binding for a path is the current one. -/
abbrev Fs : Type := List (String × FsNode)

/-- Look a path up in the file system (Go `os.Stat`; `none` models the
not-exist error). -/
def fsLookup (fs : Fs) (p : String) : Option FsNode :=
  match fs with
  | [] => none
  | e :: rest => if e.1 = p then some e.2 else fsLookup rest p

/-- Create or overwrite a path. -/
def fsInsert (fs : Fs) (p : String) (n : FsNode) : Fs := (p, n) :: fs

/-- Go `os.Remove`: drop every binding of the path. -/
def fsRemove (fs : Fs) (p : String) : Fs :=
  fs.filter (fun q => !(q.1 == p))

/-- Subdirectory check loop of `maildir.Open` (maildir.go lines 20-29):
each of the listed names must stat successfully and be a directory. -/
def checkSubdirs (fs : Fs) (path : String) : List String → Except String Unit
  | [] => .ok ()
  | d :: rest =>
    match fsLookup fs (filepathJoin [path, d]) with
    | none => .error (d ++ ": stat error")
    | some (.file _) => .error (d ++ ": not a directory")
    | some .dir => checkSubdirs fs path rest

/-- Go `maildir.Open` (maildir.go lines 17-37): clean the path, require
`tmp`, `new` and `cur` to exist as directories beneath it, and require
the stat of `maildirfolder` to fail with not-exist (any present node is
an error).  On success the returned maildir carries the cleaned path.
`Open` only stats; the file system is returned unchanged on every path. -/
def maildirOpen (fs : Fs) (path0 : String) : Fs × Except String String :=
  let path := filepathClean path0
  match checkSubdirs fs path ["tmp", "new", "cur"] with
  | .error e => (fs, .error e)
  | .ok _ =>
    match fsLookup fs (filepathJoin [path, "maildirfolder"]) with
    | some _ => (fs, .error "maildirfolder present")
    | none => (fs, .ok path)

/-- Path of the temporary file created by `os.CreateTemp` inside the
maildir `tmp` directory, with `tmpName` the generated file name. -/
def tmpPathOf (mdPath tmpName : String) : String :=
  filepathJoin [mdPath, "tmp"] ++ "/" ++ tmpName

/-- Path in `new/` that `AddMail` links the temporary file to. -/
def newPathOf (mdPath tmpName : String) : String :=
  filepathJoin [mdPath, "new", goBase (tmpPathOf mdPath tmpName)]

/-- Go `maildir.AddMail` (maildir.go lines 70-94): create a fresh
temporary file under `tmp` (`tmpName` stands for the name generated by
`os.CreateTemp`; creation fails when the directory is missing or the name
is taken), copy the incoming byte stream into it, hard-link it into
`new/` under its base name (failing when the target exists), and remove
the temporary name on every exit path (the deferred `os.Remove`). -/
def addMail (fs : Fs) (mdPath tmpName : String) (input : List Nat) :
    Fs × Except String Unit :=
  match fsLookup fs (filepathJoin [mdPath, "tmp"]) with
  | some .dir =>
    match fsLookup fs (tmpPathOf mdPath tmpName) with
    | some _ => (fs, .error "CreateTemp: file exists")
    | none =>
      let fs2 := fsInsert (fsInsert fs (tmpPathOf mdPath tmpName) (.file []))
        (tmpPathOf mdPath tmpName) (.file input)
      match fsLookup fs2 (newPathOf mdPath tmpName) with
      | some _ => (fsRemove fs2 (tmpPathOf mdPath tmpName), .error "link: file exists")
      | none =>
        (fsRemove (fsInsert fs2 (newPathOf mdPath tmpName) (.file input))
          (tmpPathOf mdPath tmpName), .ok ())
  | _ => (fs, .error "CreateTemp: no such directory")

/-! ## Concrete instances used by the theorems -/

/-- Regular `.eml` entry with a well-formed numbered name. -/
def eGood : TarEntry := ⟨"a/b/000123-x.eml", 48, [65]⟩

/-- Regular `.eml` entry whose file name has no dash separator. -/
def eNoSep : TarEntry := ⟨"a/b/abc.eml", 48, [66]⟩

/-- Another well-formed entry, id `7` after zero stripping. -/
def eSmall : TarEntry := ⟨"Inbox/007-y.eml", 48, [67]⟩

/-- Sink whose second delivery attempt fails at the LMTP MAIL command. -/
def failSecond : Nat → Option LmtpStep :=
  fun k => if k = 1 then some .mailCmd else none

/-- Ten regular `.eml` entries with ids `1` to `10`. -/
def entries10 : List TarEntry :=
  [⟨"Inbox/0001-m.eml", 48, [1]⟩, ⟨"Inbox/0002-m.eml", 48, [2]⟩,
   ⟨"Inbox/0003-m.eml", 48, [3]⟩, ⟨"Inbox/0004-m.eml", 48, [4]⟩,
   ⟨"Inbox/0005-m.eml", 48, [5]⟩, ⟨"Inbox/0006-m.eml", 48, [6]⟩,
   ⟨"Inbox/0007-m.eml", 48, [7]⟩, ⟨"Inbox/0008-m.eml", 48, [8]⟩,
   ⟨"Inbox/0009-m.eml", 48, [9]⟩, ⟨"Inbox/0010-m.eml", 48, [10]⟩]

/-- Sink failing the fifth delivery attempt (index 4) in the DATA phase. -/
def sink5 : Nat → Option LmtpStep :=
  fun k => if k = 4 then some .dataCmd else none

/-- Successful archive response carrying the ten entries. -/
def resp10 : FetchResp := ⟨200, "application/x-compressed-tar", (entries10, false)⟩

/-- Archive response with the no-content status. -/
def resp204 : FetchResp := ⟨204, "", ([], false)⟩

/-- Trivial URL resolution: the form action is already absolute. -/
def rrId : String → String → String := fun _ action => action

/-- POST login form with one hidden input, submitting to `act2`. -/
def formPost : HtmlNode :=
  .element "form" [("method", "Post"), ("action", "act2")]
    (.element "input" [("type", "hidden"), ("name", "SAMLResponse"), ("value", "xyz")]
      .nilNode .nilNode)
    .nilNode

/-- GET form (skipped by `formInfo`) whose next sibling is `formPost`. -/
def formGet : HtmlNode :=
  .element "form" [("method", "get"), ("action", "act1")]
    (.element "input" [("type", "hidden"), ("name", "q"), ("value", "1")]
      .nilNode .nilNode)
    formPost

/-- Document containing a GET form followed by a POST form. -/
def docGetThenPost : HtmlNode := .textual formGet .nilNode

/-- GET form with no sibling. -/
def formGetOnly : HtmlNode :=
  .element "form" [("method", "get"), ("action", "act1")]
    (.element "input" [("type", "hidden"), ("name", "q"), ("value", "1")]
      .nilNode .nilNode)
    .nilNode

/-- Document whose only form uses method GET. -/
def docOnlyGet : HtmlNode := .textual formGetOnly .nilNode

/-- SSO step page: a POST form with one hidden input, submitting to the
same URL the page came from. -/
def formLoop : HtmlNode :=
  .element "form" [("method", "POST"), ("action", "https://sso.example.org/login")]
    (.element "input" [("type", "hidden"), ("name", "execution"), ("value", "e1")]
      .nilNode .nilNode)
    .nilNode

/-- Document of the looping SSO page. -/
def docLoop : HtmlNode := .textual formLoop .nilNode

/-- Response of the looping SSO endpoint: acceptable status and content
type, a non-target host, and always the same URL. -/
def respA : LoginResp :=
  ⟨200, "text/html", "sso.example.org", "https://sso.example.org/login", docLoop⟩

/-- Environment in which every POST lands back on the identical SSO page:
the URL repeats on every step and the flow never converges. -/
def envLoop : LoginEnv := ⟨respA, fun _ _ => respA⟩

/-- First login step page: POST form submitting to the second step. -/
def docStep1 : HtmlNode :=
  .textual
    (.element "form" [("method", "POST"), ("action", "https://sso.example.org/step2")]
      (.element "input" [("type", "hidden"), ("name", "t"), ("value", "1")]
        .nilNode .nilNode)
      .nilNode)
    .nilNode

/-- Response to the initial GET: an SSO host, so the loop runs. -/
def respStep1 : LoginResp :=
  ⟨200, "text/html; charset=utf-8", "sso.example.org", "https://sso.example.org/login", docStep1⟩

/-- Response whose final URL already reports the target mail host. -/
def respTarget : LoginResp :=
  ⟨200, "text/html", "mail.etu.cyu.fr", "https://mail.etu.cyu.fr/", .textual .nilNode .nilNode⟩

/-- Three-step login chain in which the second response already lands on
the mail host: the GET yields `respStep1` and the single POST yields
`respTarget`. -/
def env3 : LoginEnv := ⟨respStep1, fun _ _ => respTarget⟩

/-! ## Shared lemmas -/

/-- On an all-success sink over an uncorrupted stream, the delivery loop
delivers exactly the regular `.eml` entries, in order, and collects the
ids `mailId` yields for them, in order, appended to its accumulators. -/
theorem deliverMailsAux_allOk (entries : List TarEntry) (k : Nat)
    (delivered : List TarEntry) (ids : List String) :
    deliverMailsAux allOk false entries k delivered ids =
      (delivered.reverse ++ entries.filter processedEntry,
       .ok (ids.reverse ++ (entries.filter processedEntry).filterMap
         (fun e => mailId e.name))) := by
  induction entries generalizing k delivered ids with
  | nil => simp [deliverMailsAux]
  | cons e rest ih =>
    by_cases h1 : e.typeflag = tarTypeReg
    · by_cases h2 : pathExt e.name = ".eml"
      · cases hid : mailId e.name with
        | none =>
          simp [deliverMailsAux, h1, h2, allOk, hid, ih, processedEntry]
        | some i =>
          simp [deliverMailsAux, h1, h2, allOk, hid, ih, processedEntry]
      · simp [deliverMailsAux, h1, h2, ih, processedEntry]
    · simp [deliverMailsAux, h1, ih, processedEntry]

/-- Specialization to the empty accumulators. -/
theorem deliverMails_allOk (entries : List TarEntry) :
    deliverMails allOk (entries, false) =
      .ok ((entries.filter processedEntry).filterMap (fun e => mailId e.name)) := by
  simp [deliverMails, deliverMailsAux_allOk]

/-- The delivered trace on an all-success sink is the processed-entry
sublist. -/
theorem deliveredTrace_allOk (entries : List TarEntry) :
    deliveredTrace allOk (entries, false) = entries.filter processedEntry := by
  simp [deliveredTrace, deliverMailsAux_allOk]

/-! ## Claim theorems -/

/-- Claim C1: for every regular `.eml` tar entry the delivered id is the
file name (last path segment) cut at the first dash, prefix taken, with
leading zeros stripped; `a/b/000123-x.eml` yields `123`; a name without a
dash is skipped without failing the run and later entries are still
processed; ids are accumulated in encounter order without
deduplication. -/
theorem c1_id_derivation :
    mailId "a/b/000123-x.eml" = some "123" ∧
    mailId "a/b/abc.eml" = none ∧
    (∀ ents : List TarEntry,
      deliverMails allOk (ents, false) =
        .ok ((ents.filter processedEntry).filterMap (fun e => mailId e.name))) ∧
    deliverMails allOk ([eGood, eNoSep, eSmall, eGood], false) =
      .ok ["123", "7", "123"] := by
  exact ⟨by decide, by decide, deliverMails_allOk, by rfl⟩

/-- Claim C8: every regular `.eml` entry is fully streamed to the sink
before id derivation, so a name without a dash is still delivered even
though it contributes no id: on an all-success sink the delivered trace
is exactly the regular `.eml` entries, the dashless entry included while
absent from the ids; and a sink failing on the dashless entry aborts the
run with the LMTP MAIL error, showing the exchange is attempted before
the name is parsed. -/
theorem c8_delivered_before_id :
    (∀ ents : List TarEntry,
      deliveredTrace allOk (ents, false) = ents.filter processedEntry) ∧
    deliveredTrace allOk ([eGood, eNoSep], false) = [eGood, eNoSep] ∧
    deliverMails allOk ([eGood, eNoSep], false) = .ok ["123"] ∧
    deliverMails failSecond ([eGood, eNoSep], false) = .error "LMTP MAIL" := by
  exact ⟨deliveredTrace_allOk, by decide, by rfl, by rfl⟩

/-- Claim C9: a file-name prefix consisting only of zeros strips to the
empty string, which is still appended to the id list rather than treated
as malformed. -/
theorem c9_zeros_only_id :
    mailId "a/b/000-x.eml" = some "" ∧
    deliverMails allOk ([⟨"a/b/000-x.eml", 48, [65]⟩], false) = .ok [""] := by
  exact ⟨by decide, by rfl⟩

/-- Claim C2: a 204 archive-fetch response makes `FetchArchive` return an
explicit absent value rather than an error, and the pipeline then exits 0
with zero delivered messages and no `TagMails` call. -/
theorem c2_fetch_204_noop (tag : String) (sink : Nat → Option LmtpStep)
    (tagOk : Bool) (resp : FetchResp) (h : resp.status = 204) :
    FetchArchive resp = .ok none ∧
    runPipeline tag sink tagOk resp = ⟨0, [], none, []⟩ := by
  constructor
  · simp [FetchArchive, h]
  · simp [runPipeline, FetchArchive, h]

/-- Claim C2 witness: the concrete 204 response. -/
theorem c2_fetch_204_noop_witness :
    FetchArchive resp204 = .ok none ∧
    runPipeline "seen" allOk true resp204 = ⟨0, [], none, []⟩ :=
  c2_fetch_204_noop "seen" allOk true resp204 (by decide)

/-- Claim C3: a delivery failure on any entry aborts the whole run:
`deliverMails` returns an error carrying no ids, the pipeline exits 1,
and `TagMails` is never called; concretely, with the fifth of ten entries
failing in the DATA phase, only the first four entries were delivered,
their ids are discarded and no tag call is made. -/
theorem c3_delivery_failure_aborts :
    (∀ (tag : String) (sink : Nat → Option LmtpStep) (tagOk : Bool)
       (resp : FetchResp) (ar : Archive) (msg : String),
      FetchArchive resp = .ok (some ar) →
      deliverMails sink ar = .error msg →
      runPipeline tag sink tagOk resp = ⟨1, deliveredTrace sink ar, none, []⟩) ∧
    deliverMails sink5 (entries10, false) = .error "LMTP DATA" ∧
    deliveredTrace sink5 (entries10, false) = entries10.take 4 ∧
    runPipeline "seen" sink5 true resp10 = ⟨1, entries10.take 4, none, []⟩ := by
  refine ⟨?_, by rfl, by decide, by rfl⟩
  intro tag sink tagOk resp ar msg hfetch hfail
  simp [runPipeline, hfetch, hfail]

/-- Claim C3 witness: the fifth-of-ten failure instantiated through the
general abort property. -/
theorem c3_delivery_failure_aborts_witness :
    runPipeline "seen" sink5 true resp10 =
      ⟨1, deliveredTrace sink5 (entries10, false), none, []⟩ :=
  c3_delivery_failure_aborts.1 "seen" sink5 true resp10 (entries10, false)
    "LMTP DATA" (by rfl) (by rfl)

/-- Helper: whatever the fuel, the loop on a target-host response
terminates at once with success and no further round trips. -/
theorem loginLoop_target (username password : String) (rr : String → String → String)
    (env : LoginEnv) (fuel : Nat) (resp : LoginResp) (count : Nat)
    (h : resp.host = mailHost) :
    loginLoop username password rr env fuel resp count = (.ok, count) := by
  cases fuel <;> simp [loginLoop, h]

/-- Claim C5: the login loop terminates exactly on reaching the target
mail host; on the concrete three-step chain whose second response already
reports the mail host, `Login` succeeds after exactly two round trips
(the initial GET and one POST); and every accepted response must carry
status 200 and a `text/html` content type, otherwise `Login` fails, for
the initial GET as well as for each POST step. -/
theorem c5_login_round_trips :
    login "u" "pw" rrId env3 10 = (.ok, 2) ∧
    (∀ (u p : String) (rr : String → String → String) (env : LoginEnv)
       (fuel : Nat) (resp : LoginResp) (count : Nat), resp.host = mailHost →
      loginLoop u p rr env fuel resp count = (.ok, count)) ∧
    (∀ (u p : String) (rr : String → String → String) (env : LoginEnv) (fuel : Nat),
      env.root.status ≠ 200 →
      login u p rr env fuel = (.err "GET: unexpected status code", 1)) ∧
    (∀ (u p : String) (rr : String → String → String) (env : LoginEnv) (fuel : Nat),
      env.root.status = 200 → goStartsWith env.root.ct "text/html" = false →
      login u p rr env fuel = (.err "GET: unexpected content-type", 1)) ∧
    (∀ (u p : String) (rr : String → String → String) (env : LoginEnv)
       (fuel : Nat) (resp : LoginResp) (count : Nat) (url : String)
       (inputs : List (String × String)),
      resp.host ≠ mailHost →
      extractFormInfo u p rr resp = .ok (url, inputs) →
      (env.post url inputs).status ≠ 200 →
      loginLoop u p rr env (fuel + 1) resp count =
        (.err "POST: unexpected status code", count + 1)) ∧
    (∀ (u p : String) (rr : String → String → String) (env : LoginEnv)
       (fuel : Nat) (resp : LoginResp) (count : Nat) (url : String)
       (inputs : List (String × String)),
      resp.host ≠ mailHost →
      extractFormInfo u p rr resp = .ok (url, inputs) →
      (env.post url inputs).status = 200 →
      goStartsWith (env.post url inputs).ct "text/html" = false →
      loginLoop u p rr env (fuel + 1) resp count =
        (.err "POST: unexpected content-type", count + 1)) := by
  refine ⟨by decide, loginLoop_target, ?_, ?_, ?_, ?_⟩
  · intro u p rr env fuel h
    simp [login, h]
  · intro u p rr env fuel h200 hct
    simp [login, h200, hct]
  · intro u p rr env fuel resp count url inputs hhost hext hstatus
    simp [loginLoop, hhost, hext, hstatus]
  · intro u p rr env fuel resp count url inputs hhost hext h200 hct
    simp [loginLoop, hhost, hext, h200, hct]

/-- Claim C5 witness: concrete instantiations of each hypothetical part. -/
theorem c5_login_round_trips_witness :
    loginLoop "u" "pw" rrId env3 7 respTarget 5 = (.ok, 5) ∧
    login "u" "pw" rrId ⟨⟨500, "text/html", "sso.example.org", "x", .nilNode⟩,
      fun _ _ => respTarget⟩ 3 = (.err "GET: unexpected status code", 1) ∧
    login "u" "pw" rrId ⟨⟨200, "text/plain", "sso.example.org", "x", .nilNode⟩,
      fun _ _ => respTarget⟩ 3 = (.err "GET: unexpected content-type", 1) ∧
    loginLoop "u" "pw" rrId ⟨respStep1, fun _ _ =>
      ⟨500, "text/html", "sso2.example.org", "y", .nilNode⟩⟩ 4 respStep1 1 =
      (.err "POST: unexpected status code", 2) ∧
    loginLoop "u" "pw" rrId ⟨respStep1, fun _ _ =>
      ⟨200, "application/json", "sso2.example.org", "y", .nilNode⟩⟩ 4 respStep1 1 =
      (.err "POST: unexpected content-type", 2) := by
  refine ⟨c5_login_round_trips.2.1 "u" "pw" rrId env3 7 respTarget 5 (by decide),
    c5_login_round_trips.2.2.1 "u" "pw" rrId _ 3 (by decide),
    c5_login_round_trips.2.2.2.1 "u" "pw" rrId _ 3 (by decide) (by decide),
    c5_login_round_trips.2.2.2.2.1 "u" "pw" rrId _ 3 respStep1 1
      "https://sso.example.org/step2" [("t", "1")] (by decide) (by rfl) (by decide),
    c5_login_round_trips.2.2.2.2.2 "u" "pw" rrId _ 3 respStep1 1
      "https://sso.example.org/step2" [("t", "1")] (by decide) (by rfl) (by decide)
      (by decide)⟩

/-- Claim C4 counterexample: in the environment where every POST lands
back on the identical SSO URL, the extracted submit URL equals the URL
the page came from, posting it returns the very same response, and after
five such repeated-URL steps `Login` has raised no error: the loop is
still running (`fuelOut`), so a repeated identical URL is not treated as
fatal. -/
theorem c4_repeated_url_not_fatal :
    extractFormInfo "u" "pw" rrId respA =
      .ok ("https://sso.example.org/login", [("execution", "e1")]) ∧
    envLoop.post "https://sso.example.org/login" [("execution", "e1")] = respA ∧
    respA.urlStr = "https://sso.example.org/login" ∧
    (login "u" "pw" rrId envLoop 5).1 = LoginResult.fuelOut := by
  exact ⟨by rfl, by rfl, by rfl, by decide⟩

/-- Helper: on the cycling environment, the loop consumes its entire
budget, performing one more round trip per unit of fuel, without ever
returning an error or succeeding. -/
theorem loginLoop_envLoop (fuel : Nat) : ∀ count : Nat,
    loginLoop "u" "pw" rrId envLoop fuel respA count = (.fuelOut, count + fuel) := by
  induction fuel with
  | zero => intro count; simp [loginLoop]; decide
  | succ n ih =>
    intro count
    rw [loginLoop]
    rw [if_neg (by decide)]
    show (match extractFormInfo "u" "pw" rrId respA with
      | .error _ => (LoginResult.err "cannot extract form informations", count)
      | .ok (url, inputs) =>
        if (envLoop.post url inputs).status ≠ 200 then
          (LoginResult.err "POST: unexpected status code", count + 1)
        else if goStartsWith (envLoop.post url inputs).ct "text/html" = false then
          (LoginResult.err "POST: unexpected content-type", count + 1)
        else loginLoop "u" "pw" rrId envLoop n (envLoop.post url inputs) (count + 1)) =
      (LoginResult.fuelOut, count + (n + 1))
    rw [show extractFormInfo "u" "pw" rrId respA =
      .ok ("https://sso.example.org/login", [("execution", "e1")]) from rfl]
    show (if (envLoop.post "https://sso.example.org/login" [("execution", "e1")]).status ≠ 200
      then (LoginResult.err "POST: unexpected status code", count + 1)
      else if goStartsWith (envLoop.post "https://sso.example.org/login"
          [("execution", "e1")]).ct "text/html" = false then
        (LoginResult.err "POST: unexpected content-type", count + 1)
      else loginLoop "u" "pw" rrId envLoop n
        (envLoop.post "https://sso.example.org/login" [("execution", "e1")]) (count + 1)) =
      (LoginResult.fuelOut, count + (n + 1))
    rw [if_neg (by decide), if_neg (by decide)]
    rw [show envLoop.post "https://sso.example.org/login" [("execution", "e1")] = respA from rfl]
    rw [ih (count + 1)]
    have h : count + 1 + n = count + (n + 1) := by omega
    rw [h]

/-- Claim C4 (amended): the SSO login loop performs no cycle detection;
a step whose response repeats the identical URL is processed like any
other step, the loop terminating only when a response reports the target
mail host.  On the non-converging environment `envLoop` the code keeps
posting the same form forever: for every step budget the model exhausts
the budget with one round trip per step and never raises an error. -/
theorem c4_no_cycle_detection (fuel : Nat) :
    login "u" "pw" rrId envLoop fuel = (.fuelOut, fuel + 1) := by
  show login "u" "pw" rrId envLoop fuel = (.fuelOut, fuel + 1)
  have h0 : login "u" "pw" rrId envLoop fuel =
      loginLoop "u" "pw" rrId envLoop fuel respA 1 := by
    rfl
  rw [h0, loginLoop_envLoop fuel 1]
  have h : 1 + fuel = fuel + 1 := by omega
  rw [h]

/-- Claim C4 amended-theorem witness at a concrete budget. -/
theorem c4_no_cycle_detection_witness :
    login "u" "pw" rrId envLoop 3 = (.fuelOut, 4) :=
  c4_no_cycle_detection 3

/-- Claim C6: the form search accepts exactly a form whose method
attribute upper-cases to `POST` (any other method is skipped and the
search continues, failing with the form-not-found error when no POST
form exists); from the accepted form, hidden and submit inputs with
non-empty name and value are collected verbatim, a text input named
`username` is replaced by the configured username, a password input named
`password` by the configured password, and every other input is
dropped. -/
theorem c6_form_extraction :
    formInfoChain "U" "P" docGetThenPost = .ok ("act2", [("SAMLResponse", "xyz")]) ∧
    formInfoChain "U" "P" docOnlyGet = .error "cannot find form" ∧
    (∀ u p m : String, goToUpper m = "POST" →
      formInfoChain u p (.element "form" [("method", m), ("action", "a")] .nilNode .nilNode) =
        .ok ("a", [])) ∧
    (∀ u p m : String, goToUpper m ≠ "POST" →
      formInfoChain u p (.element "form" [("method", m), ("action", "a")] .nilNode .nilNode) =
        .error "cannot find form") ∧
    (∀ u p nm val : String, nm ≠ "" → val ≠ "" →
      inputEntry u p [("type", "hidden"), ("name", nm), ("value", val)] = some (nm, val)) ∧
    (∀ u p nm val : String, nm ≠ "" → val ≠ "" →
      inputEntry u p [("type", "submit"), ("name", nm), ("value", val)] = some (nm, val)) ∧
    (∀ u p : String,
      inputEntry u p [("type", "text"), ("name", "username"), ("value", "prefill")] =
        some ("username", u)) ∧
    (∀ u p : String,
      inputEntry u p [("type", "password"), ("name", "password")] = some ("password", p)) ∧
    (∀ u p nm val : String,
      inputEntry u p [("type", "checkbox"), ("name", nm), ("value", val)] = none) ∧
    (∀ u p val : String,
      inputEntry u p [("type", "hidden"), ("name", ""), ("value", val)] = none) := by
  refine ⟨by rfl, by rfl, ?_, ?_, ?_, ?_, ?_, ?_, ?_, ?_⟩
  · intro u p m hm
    simp [formInfoChain, attrLookup, hm, formInputsChain]
  · intro u p m hm
    simp [formInfoChain, attrLookup, hm]
  · intro u p nm val hn hv
    simp [inputEntry, attrLookup, hn, hv]
  · intro u p nm val hn hv
    simp [inputEntry, attrLookup, hn, hv]
  · intro u p
    simp [inputEntry, attrLookup]
  · intro u p
    simp [inputEntry, attrLookup]
  · intro u p nm val
    simp [inputEntry, attrLookup]
  · intro u p val
    simp [inputEntry, attrLookup]

/-- Claim C6 witness: concrete instantiations of the hypothetical
parts. -/
theorem c6_form_extraction_witness :
    formInfoChain "alice" "s3cret"
      (.element "form" [("method", "pOsT"), ("action", "a")] .nilNode .nilNode) =
      .ok ("a", []) ∧
    formInfoChain "alice" "s3cret"
      (.element "form" [("method", "get"), ("action", "a")] .nilNode .nilNode) =
      .error "cannot find form" ∧
    inputEntry "alice" "s3cret" [("type", "hidden"), ("name", "lt"), ("value", "v1")] =
      some ("lt", "v1") ∧
    inputEntry "alice" "s3cret" [("type", "submit"), ("name", "go"), ("value", "OK")] =
      some ("go", "OK") ∧
    inputEntry "alice" "s3cret" [("type", "hidden"), ("name", ""), ("value", "v")] = none :=
  ⟨c6_form_extraction.2.2.1 "alice" "s3cret" "pOsT" (by decide),
   c6_form_extraction.2.2.2.1 "alice" "s3cret" "get" (by decide),
   c6_form_extraction.2.2.2.2.1 "alice" "s3cret" "lt" "v1" (by decide) (by decide),
   c6_form_extraction.2.2.2.2.2.1 "alice" "s3cret" "go" "OK" (by decide) (by decide),
   c6_form_extraction.2.2.2.2.2.2.2.2.2 "alice" "s3cret" "v"⟩

/-- Helper: removing a path removes every binding of it. -/
theorem fsLookup_fsRemove_self (fs : Fs) (p : String) :
    fsLookup (fsRemove fs p) p = none := by
  induction fs with
  | nil => rfl
  | cons e rest ih =>
    by_cases h : e.1 = p
    · have hr : fsRemove (e :: rest) p = fsRemove rest p := by
        simp [fsRemove, h]
      rw [hr, ih]
    · have hr : fsRemove (e :: rest) p = e :: fsRemove rest p := by
        simp [fsRemove, h]
      rw [hr]
      simp [fsLookup, h, ih]

/-- Helper: removing one path leaves the bindings of every other path
unchanged. -/
theorem fsLookup_fsRemove_ne (fs : Fs) (p q : String) (h : q ≠ p) :
    fsLookup (fsRemove fs p) q = fsLookup fs q := by
  induction fs with
  | nil => rfl
  | cons e rest ih =>
    by_cases he : e.1 = p
    · have hq : ¬ e.1 = q := by
        rw [he]
        exact fun hc => h hc.symm
      have hr : fsRemove (e :: rest) p = fsRemove rest p := by
        simp [fsRemove, he]
      rw [hr, ih]
      simp [fsLookup, hq]
    · have hr : fsRemove (e :: rest) p = e :: fsRemove rest p := by
        simp [fsRemove, he]
      rw [hr]
      by_cases heq : e.1 = q
      · simp [fsLookup, heq]
      · simp [fsLookup, heq, ih]

/-- Claim C7: when the `tmp` directory exists, the generated temporary
name is fresh and the `new/` target is free, `AddMail` succeeds and the
file linked into `new/` holds exactly the input bytes (and the temporary
name is gone). -/
theorem c7_addmail_roundtrip (fs : Fs) (mdPath tmpName : String) (input : List Nat)
    (hdir : fsLookup fs (filepathJoin [mdPath, "tmp"]) = some .dir)
    (hfresh : fsLookup fs (tmpPathOf mdPath tmpName) = none)
    (hnew : fsLookup fs (newPathOf mdPath tmpName) = none)
    (hne : newPathOf mdPath tmpName ≠ tmpPathOf mdPath tmpName) :
    (addMail fs mdPath tmpName input).2 = .ok () ∧
    fsLookup (addMail fs mdPath tmpName input).1 (newPathOf mdPath tmpName) =
      some (.file input) ∧
    fsLookup (addMail fs mdPath tmpName input).1 (tmpPathOf mdPath tmpName) = none := by
  have hne' : ¬ tmpPathOf mdPath tmpName = newPathOf mdPath tmpName :=
    fun hc => hne hc.symm
  have h2 : fsLookup (fsInsert (fsInsert fs (tmpPathOf mdPath tmpName) (.file []))
      (tmpPathOf mdPath tmpName) (.file input)) (newPathOf mdPath tmpName) = none := by
    simp [fsInsert, fsLookup, hne', hnew]
  have hstep : addMail fs mdPath tmpName input =
      (fsRemove (fsInsert (fsInsert (fsInsert fs (tmpPathOf mdPath tmpName) (.file []))
          (tmpPathOf mdPath tmpName) (.file input)) (newPathOf mdPath tmpName)
          (.file input))
        (tmpPathOf mdPath tmpName), .ok ()) := by
    simp [addMail, hdir, hfresh, h2]
  rw [hstep]
  refine ⟨rfl, ?_, ?_⟩
  · rw [show (fsRemove (fsInsert (fsInsert (fsInsert fs (tmpPathOf mdPath tmpName)
        (.file [])) (tmpPathOf mdPath tmpName) (.file input)) (newPathOf mdPath tmpName)
        (.file input)) (tmpPathOf mdPath tmpName), (.ok () : Except String Unit)).1 =
      fsRemove (fsInsert (fsInsert (fsInsert fs (tmpPathOf mdPath tmpName) (.file []))
        (tmpPathOf mdPath tmpName) (.file input)) (newPathOf mdPath tmpName)
        (.file input)) (tmpPathOf mdPath tmpName) from rfl]
    rw [fsLookup_fsRemove_ne _ _ _ hne]
    simp [fsInsert, fsLookup]
  · exact fsLookup_fsRemove_self _ _

/-- Well-formed maildir file system used by the witnesses. -/
def fsGood : Fs := [("md/tmp", .dir), ("md/new", .dir), ("md/cur", .dir)]

/-- Claim C7 witness: a concrete write through the sink read back
byte-identical. -/
theorem c7_addmail_roundtrip_witness :
    (addMail fsGood "md" "zimbridge-mda42" [77, 101, 10]).2 = .ok () ∧
    fsLookup (addMail fsGood "md" "zimbridge-mda42" [77, 101, 10]).1
      (newPathOf "md" "zimbridge-mda42") = some (.file [77, 101, 10]) ∧
    fsLookup (addMail fsGood "md" "zimbridge-mda42" [77, 101, 10]).1
      (tmpPathOf "md" "zimbridge-mda42") = none :=
  c7_addmail_roundtrip fsGood "md" "zimbridge-mda42" [77, 101, 10]
    (by decide) (by decide) (by decide) (by decide)

/-- Claim C10: `Open` never writes (the file system comes back
unchanged), and it succeeds precisely when `tmp`, `new` and `cur` all
exist as directories under the cleaned path and no `maildirfolder` node
is present there, the returned maildir carrying the cleaned path. -/
theorem c10_maildir_open (fs : Fs) (path0 : String) :
    (maildirOpen fs path0).1 = fs ∧
    (∀ md : String, (maildirOpen fs path0).2 = .ok md ↔
      (md = filepathClean path0 ∧
       fsLookup fs (filepathJoin [filepathClean path0, "tmp"]) = some .dir ∧
       fsLookup fs (filepathJoin [filepathClean path0, "new"]) = some .dir ∧
       fsLookup fs (filepathJoin [filepathClean path0, "cur"]) = some .dir ∧
       fsLookup fs (filepathJoin [filepathClean path0, "maildirfolder"]) = none)) := by
  cases htmp : fsLookup fs (filepathJoin [filepathClean path0, "tmp"]) with
  | none =>
    exact ⟨by simp [maildirOpen, checkSubdirs, htmp],
      fun md => by simp [maildirOpen, checkSubdirs, htmp]⟩
  | some n1 =>
    cases n1 with
    | file c =>
      exact ⟨by simp [maildirOpen, checkSubdirs, htmp],
        fun md => by simp [maildirOpen, checkSubdirs, htmp]⟩
    | dir =>
      cases hnew : fsLookup fs (filepathJoin [filepathClean path0, "new"]) with
      | none =>
        exact ⟨by simp [maildirOpen, checkSubdirs, htmp, hnew],
          fun md => by simp [maildirOpen, checkSubdirs, htmp, hnew]⟩
      | some n2 =>
        cases n2 with
        | file c =>
          exact ⟨by simp [maildirOpen, checkSubdirs, htmp, hnew],
            fun md => by simp [maildirOpen, checkSubdirs, htmp, hnew]⟩
        | dir =>
          cases hcur : fsLookup fs (filepathJoin [filepathClean path0, "cur"]) with
          | none =>
            exact ⟨by simp [maildirOpen, checkSubdirs, htmp, hnew, hcur],
              fun md => by simp [maildirOpen, checkSubdirs, htmp, hnew, hcur]⟩
          | some n3 =>
            cases n3 with
            | file c =>
              exact ⟨by simp [maildirOpen, checkSubdirs, htmp, hnew, hcur],
                fun md => by simp [maildirOpen, checkSubdirs, htmp, hnew, hcur]⟩
            | dir =>
              cases hmf : fsLookup fs
                  (filepathJoin [filepathClean path0, "maildirfolder"]) with
              | some n4 =>
                exact ⟨by simp [maildirOpen, checkSubdirs, htmp, hnew, hcur, hmf],
                  fun md => by simp [maildirOpen, checkSubdirs, htmp, hnew, hcur, hmf]⟩
              | none =>
                refine ⟨by simp [maildirOpen, checkSubdirs, htmp, hnew, hcur, hmf], ?_⟩
                intro md
                simp [maildirOpen, checkSubdirs, htmp, hnew, hcur, hmf, eq_comm]

/-- Claim C10 witness: the concrete well-formed maildir opens
successfully without touching the file system. -/
theorem c10_maildir_open_witness :
    (maildirOpen fsGood "md").1 = fsGood ∧
    (maildirOpen fsGood "md").2 = .ok "md" :=
  ⟨(c10_maildir_open fsGood "md").1,
   ((c10_maildir_open fsGood "md").2 "md").mpr (by decide)⟩

/-- Claim C1 witness: the general id-accumulation equation instantiated
on a concrete archive. -/
theorem c1_id_derivation_witness :
    deliverMails allOk ([eGood, eNoSep, eSmall], false) =
      .ok (([eGood, eNoSep, eSmall].filter processedEntry).filterMap
        (fun e => mailId e.name)) :=
  c1_id_derivation.2.2.1 [eGood, eNoSep, eSmall]

/-- Claim C8 witness: the general delivered-trace equation instantiated
on a concrete archive containing a separator-less entry. -/
theorem c8_delivered_before_id_witness :
    deliveredTrace allOk ([eGood, eNoSep], false) =
      [eGood, eNoSep].filter processedEntry :=
  c8_delivered_before_id.1 [eGood, eNoSep]
